import Mathlib

/-!
Verification of the AR1335 sensor driver (src/ar1335.c) against its
natural-language specification.

The driver is kernel C code compiled with -fno-strict-overflow, so signed
32-bit arithmetic is modelled with wrap-around semantics (`s32`), and C
integer division (truncation toward zero) is modelled with `Int.tdiv`.
Register sequences are modelled as lists of `RegOp` (a write or a
millisecond wait), mirroring the driver's `struct ar1335_reg` tables with
the `AR1335_TABLE_END` sentinel dropped and `AR1335_TABLE_WAIT_MS`
entries turned into an explicit wait constructor.
-/

/-- Two's-complement interpretation of an integer reduced to 32 bits:
the value a C `s32` holds after a wrapping computation. -/
def s32 (n : Int) : Int := (n + 2147483648) % 4294967296 - 2147483648

/-- C integer division: truncation toward zero (`Int.tdiv`). -/
def cDiv (a b : Int) : Int := Int.tdiv a b

/-- `INT_MAX` from linux/kernel.h, the initial `min_distance` of the
resolution matcher. -/
def INT_MAX_C : Int := 2147483647

/-- A register operation: a 16-bit register write, or a millisecond wait
(`AR1335_TABLE_WAIT_MS` entry of a register table). -/
inductive RegOp where
  | write (addr val : Nat)
  | waitMs (ms : Nat)
deriving DecidableEq

/-- The resolution table `ar1335_res_table`: (width, height) of the two
declared modes, in declared order. -/
def ar1335_res_table : List (Nat × Nat) := [(1920, 1080), (3840, 2160)]

/-- The `mismatch` computation of `ar1335_match_resolution`, performed in
wrapping 32-bit signed arithmetic exactly as C evaluates
`abs(w0 * h1 - w1 * h0) * 8192 / w1 / h0`. -/
def c1Mismatch (w1 h1 w0 h0 : Int) : Int :=
  s32 (cDiv (s32 (cDiv
    (s32 (s32 ((Int.natAbs (s32 (s32 (w0 * h1) - s32 (w1 * h0))) : Int)) * 8192))
    w1)) h0)

/-- The `distance` computation of `ar1335_match_resolution`, performed in
wrapping 32-bit signed arithmetic exactly as C evaluates
`(w0 * h1 + w1 * h0) * 8192 / w1 / h1`. -/
def c1Distance (w1 h1 w0 h0 : Int) : Int :=
  s32 (cDiv (s32 (cDiv
    (s32 (s32 (s32 (w0 * h1) + s32 (w1 * h0)) * 8192))
    w1)) h1)

/-- The scan loop of `ar1335_match_resolution`: modes in declared order;
skip a mode smaller than the request in either dimension; skip a mode
whose mismatch exceeds `8192 * AR1335_MAX_RATIO_MISMATCH / 100 = 819`;
accept (and break, returning the index) at the first mode whose distance
improves `min_distance`. -/
def ar1335_match_loop (w1 h1 : Int) : List (Nat × Nat) → Nat → Int → Int
  | [], _, _ => -1
  | (w0, h0) :: rest, i, minDist =>
    if (w0 : Int) < w1 ∨ (h0 : Int) < h1 then
      ar1335_match_loop w1 h1 rest (i + 1) minDist
    else if 819 < c1Mismatch w1 h1 (w0 : Int) (h0 : Int) then
      ar1335_match_loop w1 h1 rest (i + 1) minDist
    else if c1Distance w1 h1 (w0 : Int) (h0 : Int) < minDist then (i : Int)
    else ar1335_match_loop w1 h1 rest (i + 1) minDist

/-- `ar1335_match_resolution`: the requested u32 dimensions are stored
into `s32` variables (wrapping), rejected with -1 when zero, then scanned
against the mode table with `min_distance` starting at `INT_MAX`. -/
def ar1335_match_resolution (w h : Nat) : Int :=
  if s32 (w : Int) = 0 ∨ s32 (h : Int) = 0 then -1
  else ar1335_match_loop (s32 (w : Int)) (s32 (h : Int)) ar1335_res_table 0 INT_MAX_C

/-- The mismatch formula exactly as the specification states it:
`|mode.w * req.h - req.w * mode.h| * 8192 / (req.w * mode.h)`,
in exact (non-wrapping) arithmetic. -/
def c1SpecMismatch (w1 h1 w0 h0 : Nat) : Nat :=
  Int.natAbs ((w0 * h1 : Int) - (w1 * h0 : Int)) * 8192 / (w1 * h0)

/-- The distance formula exactly as the specification states it:
`(mode.w * req.h + req.w * mode.h) * 8192 / (req.w * req.h)`,
in exact (non-wrapping) arithmetic. -/
def c1SpecDistance (w1 h1 w0 h0 : Nat) : Nat :=
  (w0 * h1 + w1 * h0) * 8192 / (w1 * h1)

/-- The claimed scan procedure, following the specification's words:
declared order, only modes at least as large as the request, skip
mismatch above 819, return the first candidate improving the running
minimum distance. -/
def c1SpecLoop (w1 h1 : Nat) : List (Nat × Nat) → Nat → Nat → Int
  | [], _, _ => -1
  | (w0, h0) :: rest, i, minDist =>
    if w0 < w1 ∨ h0 < h1 then c1SpecLoop w1 h1 rest (i + 1) minDist
    else if 819 < c1SpecMismatch w1 h1 w0 h0 then
      c1SpecLoop w1 h1 rest (i + 1) minDist
    else if c1SpecDistance w1 h1 w0 h0 < minDist then (i : Int)
    else c1SpecLoop w1 h1 rest (i + 1) minDist

/-- The resolution matcher as the specification describes it. -/
def c1SpecMatch (w h : Nat) : Int :=
  c1SpecLoop w h ar1335_res_table 0 2147483647

/-- `ar1335_try_mbus_fmt_locked`: when the request does not exceed the
largest (last) table mode in either dimension the matcher runs; an index
of -1 (request too large, zero-sized, or no accepted candidate) falls
back to the last mode; the format is snapped to the selected mode's
dimensions. Returns (selected index, snapped width, snapped height). -/
def ar1335_try_mbus_fmt (w h : Nat) : Nat × Nat × Nat :=
  let idx0 : Int :=
    if w ≤ 3840 ∧ h ≤ 2160 then ar1335_match_resolution w h else -1
  let idx : Nat := if idx0 = -1 then ar1335_res_table.length - 1 else idx0.toNat
  let m := ar1335_res_table.getD idx (0, 0)
  (idx, m.1, m.2)

/-- `MEDIA_BUS_FMT_SRGGB10_1X10`. -/
def MEDIA_BUS_FMT_SRGGB10_1X10 : Nat := 0x300F

/-- `MEDIA_BUS_FMT_SRGGB8_1X8`. -/
def MEDIA_BUS_FMT_SRGGB8_1X8 : Nat := 0x3014

/-- `V4L2_FIELD_NONE`. -/
def V4L2_FIELD_NONE : Nat := 1

/-- The device's `struct v4l2_mbus_framefmt` fields the driver uses. -/
structure Ar1335Format where
  width : Nat
  height : Nat
  code : Nat
  field : Nat
deriving DecidableEq

/-- The mutable device state of `struct ar1335_device` relevant to the
claims: the stored format, the current resolution index (`s32 cur_res`),
the `sys_activated` flag, and the `res_table` pointer, which is `none`
when it holds NULL. -/
structure Ar1335Device where
  format : Ar1335Format
  cur_res : Int
  sys_activated : Bool
  res_table : Option (List (Nat × Nat))
deriving DecidableEq

/-- The device state `ar1335_probe` establishes: format 4240x3152,
SRGGB10, progressive; every field not assigned in `ar1335_probe`
(`cur_res`, `sys_activated`, `res_table`) keeps the zero value given by
`devm_kzalloc` - in particular the `res_table` pointer stays NULL. -/
def ar1335_probe_device : Ar1335Device :=
  { format := { width := 4240, height := 3152,
                code := MEDIA_BUS_FMT_SRGGB10_1X10, field := V4L2_FIELD_NONE },
    cur_res := 0,
    sys_activated := false,
    res_table := none }

/-- `ar1335_set_fmt` (ACTIVE case; the TRY case only touches the pad
state, not the device). The matched index and snapped dimensions are
stored into `cur_res` and `dev->format` first; only then is the
requested media-bus code validated, returning -EINVAL (-22) for an
unsupported code. Returns (new device state, snapped request, return
code). -/
def ar1335_set_fmt (dev : Ar1335Device) (req : Ar1335Format) :
    Ar1335Device × Ar1335Format × Int :=
  let t := ar1335_try_mbus_fmt req.width req.height
  let dev1 : Ar1335Device :=
    { dev with
      cur_res := (t.1 : Int),
      format := { dev.format with
                  width := t.2.1, height := t.2.2, field := V4L2_FIELD_NONE } }
  let req' : Ar1335Format := { req with width := t.2.1, height := t.2.2 }
  if req.code = MEDIA_BUS_FMT_SRGGB10_1X10 ∨
     req.code = MEDIA_BUS_FMT_SRGGB8_1X8 then
    ({ dev1 with format := { dev1.format with code := req.code } }, req', 0)
  else
    (dev1, req', -22)

/-- u32 subtraction with wrap-around, as C computes
`AR1335_WIDTH_MAX - sensor->format.width` on unsigned int. -/
def u32sub (a b : Nat) : Nat := (a + 4294967296 - b) % 4294967296

/-- The clamped horizontal start of `ar1335_set_geometry`:
`clamp((AR1335_WIDTH_MAX - width) / 2, AR1335_MIN_X_ADDR_START,
AR1335_MAX_X_ADDR_END)` with WIDTH_MAX = 4240, MIN_X = 8, MAX_X_END =
4231. -/
def ar1335_geom_x (w : Nat) : Nat :=
  min 4231 (max 8 (u32sub 4240 w / 2))

/-- The clamped vertical start of `ar1335_set_geometry`:
`clamp(((AR1335_HEIGHT_MAX - height) / 2) & ~1, AR1335_MIN_Y_ADDR_START,
AR1335_MAX_Y_ADDR_END)` with HEIGHT_MAX = 3152, MIN_Y = 8, MAX_Y_END =
3143; `& ~1` on u32 is a mask with 0xFFFFFFFE. -/
def ar1335_geom_y (h : Nat) : Nat :=
  min 3143 (max 8 (u32sub 3152 h / 2 &&& 4294967294))

/-- `ar1335_set_geometry`: one burst write starting at
`AR1335_REG_X_ADDR_START` (0x0344) carrying x_start, y_start, x_end,
y_end, output width, output height into the six consecutive 16-bit
registers; each emitted value is truncated to 16 bits by
`cpu_to_be16`. -/
def ar1335_set_geometry (w h : Nat) : List RegOp :=
  [RegOp.write 0x0344 (ar1335_geom_x w),
   RegOp.write 0x0346 (ar1335_geom_y h),
   RegOp.write 0x0348 ((ar1335_geom_x w + w - 1) % 65536),
   RegOp.write 0x034A ((ar1335_geom_y h + h - 1) % 65536),
   RegOp.write 0x034C (w % 65536),
   RegOp.write 0x034E (h % 65536)]

/-- `AR1335_WAIT_MS`, the delay carried by `AR1335_TABLE_WAIT_MS`
entries. -/
def AR1335_WAIT_MS : Nat := 100

/-- The register table `mode_1920x1080_30`, in declared order (the
`AR1335_TABLE_END` sentinel dropped). -/
def mode_1920x1080_30 : List RegOp :=
  [RegOp.write 0x31B0 0x004D,
   RegOp.write 0x31B2 0x0028,
   RegOp.write 0x31B4 0x230E,
   RegOp.write 0x31B6 0x1348,
   RegOp.write 0x31B8 0x1C12,
   RegOp.write 0x31BA 0x185B,
   RegOp.write 0x31BC 0x8509,
   RegOp.write 0x31AE 0x0204,
   RegOp.write 0x3024 0x0001,
   RegOp.write 0x0300 0x0004,
   RegOp.write 0x0302 0x0001,
   RegOp.write 0x0304 0x0303,
   RegOp.write 0x0306 0x3737,
   RegOp.write 0x0308 0x000A,
   RegOp.write 0x030A 0x0001,
   RegOp.write 0x0112 0x0A0A,
   RegOp.write 0x3016 0x0101,
   RegOp.waitMs AR1335_WAIT_MS,
   RegOp.write 0x0342 0x1230,
   RegOp.write 0x0340 0x0C4E,
   RegOp.write 0x3040 0x4041,
   RegOp.write 0x3172 0x0206,
   RegOp.write 0x317A 0x516E,
   RegOp.write 0x3F3C 0x0003,
   RegOp.write 0x0400 0x0001,
   RegOp.write 0x0404 0x0010,
   RegOp.write 0x0202 0x0C2E]

/-- The register table `mode_3840x2160_30`, in declared order (the
`AR1335_TABLE_END` sentinel dropped). -/
def mode_3840x2160_30 : List RegOp :=
  [RegOp.write 0x31B0 0x0086,
   RegOp.write 0x31B2 0x0057,
   RegOp.write 0x31B4 0x2412,
   RegOp.write 0x31B6 0x142A,
   RegOp.write 0x31B8 0x2413,
   RegOp.write 0x31BA 0x1C70,
   RegOp.write 0x31BC 0x068B,
   RegOp.write 0x31AE 0x0204,
   RegOp.write 0x0300 0x0004,
   RegOp.write 0x0302 0x0001,
   RegOp.write 0x0304 0x0903,
   RegOp.write 0x0306 0xCF37,
   RegOp.write 0x0308 0x000A,
   RegOp.write 0x030A 0x0001,
   RegOp.write 0x0112 0x0A0A,
   RegOp.write 0x3016 0x0101,
   RegOp.waitMs AR1335_WAIT_MS,
   RegOp.write 0x0342 0x1230,
   RegOp.write 0x0340 0x0C4E,
   RegOp.write 0x3040 0x4041,
   RegOp.write 0x3172 0x0206,
   RegOp.write 0x317A 0x416E,
   RegOp.write 0x3F3C 0x0003,
   RegOp.write 0x0400 0x0000,
   RegOp.write 0x0404 0x0010,
   RegOp.write 0x0202 0x0C2E]

/-- `ar1335_start_stream` (sentinel dropped). -/
def ar1335_start_stream : List RegOp :=
  [RegOp.write 0x3F3C 0x0003,
   RegOp.write 0x301A 0x023C]

/-- `ar1335_stop_stream` (sentinel dropped). -/
def ar1335_stop_stream : List RegOp :=
  [RegOp.write 0x3F3C 0x0002,
   RegOp.write 0x301A 0x0210]

/-- The per-mode register table `ar1335_res_table[idx].ar1335_mode`, in
table order. -/
def ar1335_mode_of (idx : Nat) : List RegOp :=
  ([mode_1920x1080_30, mode_3840x2160_30]).getD idx []

/-- The full register sequence `ar1335_s_stream` issues on
`enable != 0`: `ar1335_set_stream` writes the geometry burst, then the
`ar1335_res_table[idx].ar1335_mode` table is written, then
`ar1335_start_stream`. Both the `sys_activated` and the already-active
branch of `ar1335_s_stream` issue exactly this sequence. -/
def ar1335_stream_start_ops (w h idx : Nat) : List RegOp :=
  ar1335_set_geometry w h ++ ar1335_mode_of idx ++ ar1335_start_stream

/-- `ar1335_s_stream`: on enable the geometry burst, the current mode
table and the start-stream table are written (and `sys_activated` is set
on the first activation); on disable only the stop-stream table is
written. No streaming-state check is performed in either direction; with
the bus transport succeeding, the return code is 0. Returns (new device
state, issued register sequence, return code). -/
def ar1335_s_stream (dev : Ar1335Device) (enable : Bool) :
    Ar1335Device × List RegOp × Int :=
  if enable then
    ({ dev with sys_activated := true },
     ar1335_stream_start_ops dev.format.width dev.format.height dev.cur_res.toNat,
     0)
  else
    (dev, ar1335_stop_stream, 0)

/-- `ar1335_gain_values`: the six preset values the gain control writes
to register 0x305E. -/
def ar1335_gain_values : List Nat :=
  [0x2015, 0x2025, 0x2035, 0x2BBF, 0x573F, 0xAE3F]

/-- `ar1335_set_gain`: a single write of the selected preset to register
0x305E. -/
def ar1335_set_gain (val : Nat) : RegOp :=
  RegOp.write 0x305E (ar1335_gain_values.getD val 0)

/-- The outcome of `ar1335_enum_frame_size`: a successful enumeration, a
negative error code, or a memory fault (a read through a NULL or
out-of-range `res_table` pointer). -/
inductive EnumResult where
  | ok (w h : Nat)
  | err (e : Int)
  | fault
deriving DecidableEq

/-- `ar1335_enum_frame_size`: the u32 `fse->index` is converted to a C
`int`; any index at or above `dev->cur_res` returns -EINVAL (-22);
otherwise `dev->res_table[index]` is read, which faults when the
`res_table` pointer is NULL (it is never assigned by the driver) or the
signed index is out of range. -/
def ar1335_enum_frame_size (dev : Ar1335Device) (index : Nat) : EnumResult :=
  if dev.cur_res ≤ s32 (index : Int) then EnumResult.err (-22)
  else if s32 (index : Int) < 0 then EnumResult.fault
  else
    match dev.res_table with
    | none => EnumResult.fault
    | some t =>
      match t.get? (s32 (index : Int)).toNat with
      | some m => EnumResult.ok m.1 m.2
      | none => EnumResult.fault

/-- True when `op` is a write to register address `a`. -/
def writesTo (a : Nat) : RegOp → Bool
  | RegOp.write addr _ => addr == a
  | RegOp.waitMs _ => false

/-- Position of the first write to register `a` in an op sequence
(the sequence's length when absent). -/
def addrIndex (l : List RegOp) (a : Nat) : Nat :=
  l.findIdx (writesTo a)

/-- Modelled from the spec: `PLL_MIN`, the lower bound (320 MHz) of the
PLL output range of the computed-PLL synthesizer design of section 4.3,
which is absent from src/ (the driver only carries hardcoded per-mode
PLL register values such as those in `mode_3840x2160_30`). -/
def PLL_MIN : Nat := 320000000

/-- Modelled from the spec: `PLL_MAX`, the upper bound (1200 MHz) of the
PLL output range of the computed-PLL synthesizer design of section 4.3,
absent from src/. -/
def PLL_MAX : Nat := 1200000000

/-- Ceiling division on naturals: the spec's "ceiling semantics". -/
def ceilDiv (a b : Nat) : Nat := (a + b - 1) / b

/-- Modelled from the spec: for one pre-divider value, the minimal
integer multiplier satisfying `ext * mult / pre >= target`, i.e.
`ceil(target * pre / ext)` (section 4.3: "compute the minimal integer
mult satisfying ... (ceiling division)"). -/
def pllMinMult (target ext pre : Nat) : Nat := ceilDiv (target * pre) ext

/-- Modelled from the spec: the PLL frequency `ext * mult / pre` a
`(pre, mult)` pair achieves, with ceiling semantics. -/
def pllFreq (ext mult pre : Nat) : Nat := ceilDiv (ext * mult) pre

/-- Modelled from the spec: the PLL divider/multiplier pair of a
solution. The second DPLL stage always mirrors the first in the
implemented variant, and the claims do not constrain the remaining
fields, so only the first pre/mult pair is carried. -/
structure PLLConfig where
  pre : Nat
  mult : Nat
deriving DecidableEq

/-- Modelled from the spec: the error of section 7 returned when the
synthesizer finds no solution. -/
inductive PllError where
  | ClockOutOfRange
deriving DecidableEq

/-- Modelled from the spec: the exhaustive search loop of section 4.3
over the remaining pre-divider values, carrying the best (lowest
achieved frequency) candidate seen so far, initialised to the
out-of-range sentinel frequency `PLL_MAX + 1`. For each pre the minimal
multiplier is computed; `mult < 32` skips to the next pre; `mult > 254`
terminates the search; an achieved frequency above `PLL_MAX` terminates
the search; one below `PLL_MIN` skips to the next pre; otherwise the
candidate replaces the best when its achieved frequency is strictly
smaller. -/
def pllLoop (target ext : Nat) :
    List Nat → Nat × Nat × Nat → Nat × Nat × Nat
  | [], best => best
  | pre :: rest, best =>
    if pllMinMult target ext pre < 32 then pllLoop target ext rest best
    else if 254 < pllMinMult target ext pre then best
    else if PLL_MAX < pllFreq ext (pllMinMult target ext pre) pre then best
    else if pllFreq ext (pllMinMult target ext pre) pre < PLL_MIN then
      pllLoop target ext rest best
    else if pllFreq ext (pllMinMult target ext pre) pre < best.1 then
      pllLoop target ext rest
        (pllFreq ext (pllMinMult target ext pre) pre, pre,
         pllMinMult target ext pre)
    else pllLoop target ext rest best

/-- Modelled from the spec: the PLL synthesizer contract
`solve(target_freq, ext_clk_freq)` of section 4.3, searching pre in
[1, 63] and failing with ClockOutOfRange when no candidate is kept. -/
def pllSolve (target ext : Nat) : Except PllError PLLConfig :=
  if (pllLoop target ext (List.range' 1 63) (PLL_MAX + 1, 1, 0)).1 = PLL_MAX + 1
  then Except.error PllError.ClockOutOfRange
  else
    Except.ok
      { pre := (pllLoop target ext (List.range' 1 63) (PLL_MAX + 1, 1, 0)).2.1,
        mult := (pllLoop target ext (List.range' 1 63) (PLL_MAX + 1, 1, 0)).2.2 }

/-- A `(pre, mult)` pair that is valid for `(target, ext)` in the sense
of claim C4: dividers in range, multiplier in range, achieved frequency
within `[PLL_MIN, PLL_MAX]` and at least the target. -/
def pllValidPair (target ext pre mult : Nat) : Prop :=
  1 ≤ pre ∧ pre ≤ 63 ∧ 32 ≤ mult ∧ mult ≤ 254 ∧
  target ≤ pllFreq ext mult pre ∧
  PLL_MIN ≤ pllFreq ext mult pre ∧ pllFreq ext mult pre ≤ PLL_MAX

instance (target ext pre mult : Nat) :
    Decidable (pllValidPair target ext pre mult) := by
  unfold pllValidPair; infer_instance

/-- The pre-divider values whose minimal-multiplier candidate satisfies
every constraint of the search: these are the candidates the scan can
keep. -/
def pllGoodPre (target ext pre : Nat) : Prop :=
  32 ≤ pllMinMult target ext pre ∧ pllMinMult target ext pre ≤ 254 ∧
  PLL_MIN ≤ pllFreq ext (pllMinMult target ext pre) pre ∧
  pllFreq ext (pllMinMult target ext pre) pre ≤ PLL_MAX

instance (target ext pre : Nat) : Decidable (pllGoodPre target ext pre) := by
  unfold pllGoodPre; infer_instance

/-- The pre-divider values at which the scan of section 4.3 terminates
early: the minimal multiplier is at least 32 (so the pre is not merely
skipped) and either exceeds 254 or achieves a frequency above
`PLL_MAX`. -/
def pllBreakAt (target ext pre : Nat) : Prop :=
  32 ≤ pllMinMult target ext pre ∧
  (254 < pllMinMult target ext pre ∨
   PLL_MAX < pllFreq ext (pllMinMult target ext pre) pre)

instance (target ext pre : Nat) : Decidable (pllBreakAt target ext pre) := by
  unfold pllBreakAt; infer_instance

/-- The invariant every candidate kept by the search satisfies: its
pre-divider and multiplier are in range, the multiplier is the minimal
one for that pre-divider, and the recorded frequency is the achieved
frequency and lies within the PLL output range. -/
def pllInv (target ext : Nat) (b : Nat × Nat × Nat) : Prop :=
  1 ≤ b.2.1 ∧ b.2.1 ≤ 63 ∧ b.2.2 = pllMinMult target ext b.2.1 ∧
  32 ≤ b.2.2 ∧ b.2.2 ≤ 254 ∧ b.1 = pllFreq ext b.2.2 b.2.1 ∧
  PLL_MIN ≤ b.1 ∧ b.1 ≤ PLL_MAX

theorem s32_id (n : Int) (h1 : -2147483648 ≤ n) (h2 : n < 2147483648) :
    s32 n = n := by
  unfold s32; omega

theorem s32_bounds (n : Int) :
    -2147483648 ≤ s32 n ∧ s32 n < 2147483648 := by
  unfold s32; omega

theorem s32_emod_two (n : Int) : s32 n % 2 = n % 2 := by
  unfold s32; omega

theorem cDiv_natCast (a b : Nat) :
    cDiv (a : Int) (b : Int) = ((a / b : Nat) : Int) := by
  unfold cDiv
  cases a <;> cases b <;> rfl

theorem cDiv_shrink (a : Int) (b : Nat) (h1 : -2147483648 ≤ a)
    (h2 : a ≤ 2147483646) :
    -2147483648 ≤ cDiv a (b : Int) ∧ cDiv a (b : Int) ≤ 2147483646 := by
  unfold cDiv
  cases a with
  | ofNat m =>
      have e0 : Int.ofNat m = (m : Int) := rfl
      have e : Int.tdiv (Int.ofNat m) (b : Int) = ((m / b : Nat) : Int) := by
        cases b <;> rfl
      rw [e]
      have hd : m / b ≤ m := Nat.div_le_self m b
      rw [e0] at h2
      have hn : (0 : Int) ≤ ((m / b : Nat) : Int) := Int.natCast_nonneg _
      have hc : ((m / b : Nat) : Int) ≤ (m : Int) := by exact_mod_cast hd
      constructor <;> omega
  | negSucc m =>
      have e0 : Int.negSucc m = -((m : Int) + 1) := rfl
      have e : Int.tdiv (Int.negSucc m) (b : Int) = -(((m + 1) / b : Nat) : Int) := by
        cases b with
        | zero => rfl
        | succ k => rfl
      rw [e]
      have hd : (m + 1) / b ≤ m + 1 := Nat.div_le_self (m + 1) b
      rw [e0] at h1
      have hc : (((m + 1) / b : Nat) : Int) ≤ ((m : Int) + 1) := by exact_mod_cast hd
      have hn : (0 : Int) ≤ (((m + 1) / b : Nat) : Int) := Int.natCast_nonneg _
      constructor <;> omega


theorem s32_natCast_id (n : Nat) (h : n < 2147483648) :
    s32 (n : Int) = (n : Int) := by
  apply s32_id
  · exact le_trans (by norm_num) (Int.natCast_nonneg n)
  · exact_mod_cast h

theorem c1Distance_lt_intmax (w h w0 h0 : Nat)
    (hw1 : 1 ≤ w) (hw2 : w ≤ 3840) (hh2 : h ≤ 2160)
    (hw0 : w0 ≤ 3840) (hh0 : h0 ≤ 2160) :
    c1Distance (w : Int) (h : Int) (w0 : Int) (h0 : Int) < INT_MAX_C := by
  unfold c1Distance INT_MAX_C
  have e1 : s32 ((w0 : Int) * (h : Int)) = ((w0 * h : Nat) : Int) := by
    rw [show ((w0 : Int) * (h : Int)) = ((w0 * h : Nat) : Int) by push_cast; ring]
    exact s32_natCast_id _ (Nat.lt_of_le_of_lt (Nat.mul_le_mul hw0 hh2) (by norm_num))
  have e2 : s32 ((w : Int) * (h0 : Int)) = ((w * h0 : Nat) : Int) := by
    rw [show ((w : Int) * (h0 : Int)) = ((w * h0 : Nat) : Int) by push_cast; ring]
    exact s32_natCast_id _ (Nat.lt_of_le_of_lt (Nat.mul_le_mul hw2 hh0) (by norm_num))
  rw [e1, e2]
  clear e1 e2
  have e3 : s32 (((w0 * h : Nat) : Int) + ((w * h0 : Nat) : Int)) =
      ((w0 * h + w * h0 : Nat) : Int) := by
    rw [show (((w0 * h : Nat) : Int) + ((w * h0 : Nat) : Int)) =
        ((w0 * h + w * h0 : Nat) : Int) by push_cast; ring]
    apply s32_natCast_id
    have hs : w0 * h + w * h0 ≤ 3840 * 2160 + 3840 * 2160 :=
      Nat.add_le_add (Nat.mul_le_mul hw0 hh2) (Nat.mul_le_mul hw2 hh0)
    exact Nat.lt_of_le_of_lt hs (by norm_num)
  rw [e3]
  clear e3 hw0 hh0 hw2 hh2
  generalize ((w0 * h + w * h0 : Nat) : Int) = S
  have hpar : s32 (S * 8192) % 2 = 0 := by
    rw [s32_emod_two]
    omega
  have hb4 := s32_bounds (S * 8192)
  generalize hA : s32 (S * 8192) = A at hb4 hpar ⊢
  clear hA
  have h5 := cDiv_shrink A w hb4.1 (by omega)
  generalize hB : cDiv A (w : Int) = B at h5 ⊢
  clear hB hb4 hpar
  rw [s32_id B h5.1 (by omega)]
  have h6 := cDiv_shrink B h h5.1 h5.2
  rw [s32_id _ h6.1 (by omega)]
  omega

theorem c1SpecDistance_lt_intmax (w h w0 h0 : Nat)
    (hw1 : 1 ≤ w) (hh1 : 1 ≤ h) (hw0 : w0 ≤ 3840) (hh0 : h0 ≤ 2160) :
    c1SpecDistance w h w0 h0 < 2147483647 := by
  unfold c1SpecDistance
  have hX : (w0 * h + w * h0) * 8192 ≤ w * h * 49152000 := by
    have a1 : w0 * h * 8192 ≤ w * h * 31457280 := by
      calc w0 * h * 8192 ≤ 3840 * h * 8192 :=
            Nat.mul_le_mul_right _ (Nat.mul_le_mul_right _ hw0)
        _ = 1 * (h * 31457280) := by ring
        _ ≤ w * (h * 31457280) := Nat.mul_le_mul_right _ hw1
        _ = w * h * 31457280 := by ring
    have a2 : w * h0 * 8192 ≤ w * h * 17694720 := by
      calc w * h0 * 8192 ≤ w * 2160 * 8192 :=
            Nat.mul_le_mul_right _ (Nat.mul_le_mul_left _ hh0)
        _ = w * (1 * 17694720) := by ring
        _ ≤ w * (h * 17694720) :=
            Nat.mul_le_mul_left _ (Nat.mul_le_mul_right _ hh1)
        _ = w * h * 17694720 := by ring
    calc (w0 * h + w * h0) * 8192 = w0 * h * 8192 + w * h0 * 8192 := by ring
      _ ≤ w * h * 31457280 + w * h * 17694720 := Nat.add_le_add a1 a2
      _ = w * h * 49152000 := by ring
  have hwh : 0 < w * h := Nat.mul_pos hw1 hh1
  have hdiv : (w0 * h + w * h0) * 8192 / (w * h) ≤ 49152000 := by
    have hm : (w0 * h + w * h0) * 8192 / (w * h) ≤ w * h * 49152000 / (w * h) :=
      Nat.div_le_div_right hX
    rwa [Nat.mul_div_cancel_left _ hwh] at hm
  omega

theorem c1Mismatch_eq (w h w0 h0 : Nat)
    (hw1 : 1 ≤ w) (hw2 : w ≤ 3840) (hh2 : h ≤ 2160)
    (hw0 : w0 ≤ 3840) (hh01 : 1 ≤ h0) (hh0 : h0 ≤ 2160)
    (hov : Int.natAbs (((w0 * h : Nat) : Int) - ((w * h0 : Nat) : Int)) * 8192
           < 2147483648) :
    c1Mismatch (w : Int) (h : Int) (w0 : Int) (h0 : Int) =
      (c1SpecMismatch w h w0 h0 : Int) := by
  unfold c1Mismatch c1SpecMismatch
  have p1 : ((w0 : Int) * (h : Int)) = ((w0 * h : Nat) : Int) := by push_cast; ring
  have p2 : ((w : Int) * (h0 : Int)) = ((w * h0 : Nat) : Int) := by push_cast; ring
  rw [p1, p2]
  clear p1 p2
  have hA : (w0 * h : Nat) < 2147483648 :=
    Nat.lt_of_le_of_lt (Nat.mul_le_mul hw0 hh2) (by norm_num)
  have hB : (w * h0 : Nat) < 2147483648 :=
    Nat.lt_of_le_of_lt (Nat.mul_le_mul hw2 hh0) (by norm_num)
  rw [s32_natCast_id _ hA, s32_natCast_id _ hB]
  have e3 : s32 (((w0 * h : Nat) : Int) - ((w * h0 : Nat) : Int)) =
      ((w0 * h : Nat) : Int) - ((w * h0 : Nat) : Int) := by
    have cA : ((w0 * h : Nat) : Int) < 2147483648 := by exact_mod_cast hA
    have cB : ((w * h0 : Nat) : Int) < 2147483648 := by exact_mod_cast hB
    have nA : (0 : Int) ≤ ((w0 * h : Nat) : Int) := Int.natCast_nonneg _
    have nB : (0 : Int) ≤ ((w * h0 : Nat) : Int) := Int.natCast_nonneg _
    apply s32_id <;> omega
  rw [e3]
  clear e3 hA hB
  obtain ⟨N, hN⟩ : ∃ n, Int.natAbs (((w0 * h : Nat) : Int) - ((w * h0 : Nat) : Int)) = n :=
    ⟨_, rfl⟩
  rw [hN] at hov ⊢
  have hN1 : N < 2147483648 := by omega
  rw [s32_natCast_id N hN1]
  rw [show ((N : Int) * 8192) = ((N * 8192 : Nat) : Int) by push_cast; ring]
  rw [s32_natCast_id (N * 8192) hov]
  rw [cDiv_natCast (N * 8192) w]
  rw [s32_natCast_id (N * 8192 / w) (Nat.lt_of_le_of_lt (Nat.div_le_self _ _) hov)]
  rw [cDiv_natCast (N * 8192 / w) h0]
  rw [s32_natCast_id (N * 8192 / w / h0)
    (Nat.lt_of_le_of_lt (Nat.le_trans (Nat.div_le_self _ _) (Nat.div_le_self _ _)) hov)]
  exact_mod_cast congrArg Nat.cast (Nat.div_div_eq_div_mul (N * 8192) w h0)

theorem match_loop_eq_spec (w h : Nat)
    (hw1 : 1 ≤ w) (hw2 : w ≤ 3840) (hh1 : 1 ≤ h) (hh2 : h ≤ 2160) :
    ∀ (l : List (Nat × Nat)) (i : Nat),
      (∀ m ∈ l, m.1 ≤ 3840 ∧ 1 ≤ m.2 ∧ m.2 ≤ 2160 ∧
        Int.natAbs (((m.1 * h : Nat) : Int) - ((w * m.2 : Nat) : Int)) * 8192
          < 2147483648) →
      ar1335_match_loop (w : Int) (h : Int) l i INT_MAX_C =
        c1SpecLoop w h l i 2147483647 := by
  intro l
  induction l with
  | nil => intro i _; rfl
  | cons m rest ih =>
      obtain ⟨w0, h0⟩ := m
      intro i hl
      have hhead := hl (w0, h0) (List.mem_cons_self _ _)
      have htail := fun x hx => hl x (List.mem_cons_of_mem _ hx)
      obtain ⟨hm1, hm2, hm3, hm4⟩ := hhead
      simp only [ar1335_match_loop, c1SpecLoop]
      apply if_congr
      · constructor
        · intro hc
          rcases hc with hc | hc
          · exact Or.inl (by exact_mod_cast hc)
          · exact Or.inr (by exact_mod_cast hc)
        · intro hc
          rcases hc with hc | hc
          · exact Or.inl (by exact_mod_cast hc)
          · exact Or.inr (by exact_mod_cast hc)
      · exact ih (i + 1) htail
      · apply if_congr
        · rw [c1Mismatch_eq w h w0 h0 hw1 hw2 hh2 hm1 hm2 hm3 hm4]
          constructor
          · intro hc; exact_mod_cast hc
          · intro hc; exact_mod_cast hc
        · exact ih (i + 1) htail
        · apply if_congr
          · exact iff_of_true
              (c1Distance_lt_intmax w h w0 h0 hw1 hw2 hh2 hm1 hm3)
              (c1SpecDistance_lt_intmax w h w0 h0 hw1 hh1 hm1 hm3)
          · rfl
          · exact ih (i + 1) htail

/-- C1 (corrected, amended): for a nonzero request that does not exceed
the largest table mode in either dimension, and whose per-mode mismatch
numerator `|mode.w * req.h - req.w * mode.h| * 8192` fits in a signed
32-bit integer, `ar1335_match_resolution` behaves exactly as the
specification describes: it scans modes in declared order, considers
only modes at least as large as the request, skips any mode whose
mismatch `|mode.w * req.h - req.w * mode.h| * 8192 / (req.w * mode.h)`
exceeds 819, computes the distance
`(mode.w * req.h + req.w * mode.h) * 8192 / (req.w * req.h)` for
survivors, and returns the index of the first candidate improving the
running minimum distance, terminating the scan there. Without the
no-overflow bound the wrapping 32-bit arithmetic of the C code diverges
from the stated formulas (see the counterexample). -/
theorem C1_match_first_improvement (w h : Nat)
    (hw1 : 1 ≤ w) (hw2 : w ≤ 3840) (hh1 : 1 ≤ h) (hh2 : h ≤ 2160)
    (hov : ∀ m ∈ ar1335_res_table,
      Int.natAbs (((m.1 * h : Nat) : Int) - ((w * m.2 : Nat) : Int)) * 8192
        < 2147483648) :
    ar1335_match_resolution w h = c1SpecMatch w h := by
  unfold ar1335_match_resolution c1SpecMatch
  have hw' : s32 (w : Int) = (w : Int) := s32_natCast_id w (by omega)
  have hh' : s32 (h : Int) = (h : Int) := s32_natCast_id h (by omega)
  rw [hw', hh']
  rw [if_neg (by omega)]
  apply match_loop_eq_spec w h hw1 hw2 hh1 hh2 ar1335_res_table 0
  intro m hm
  have hmem : m = (1920, 1080) ∨ m = (3840, 2160) := by
    simpa [ar1335_res_table] using hm
  rcases hmem with rfl | rfl
  · exact ⟨by norm_num, by norm_num, by norm_num, hov (1920, 1080) (by simp [ar1335_res_table])⟩
  · exact ⟨by norm_num, by norm_num, by norm_num, hov (3840, 2160) (by simp [ar1335_res_table])⟩

/-- C1 witness: the request 1900x1070 satisfies every hypothesis of the
amended claim, and there the matcher and the specified procedure agree,
both selecting mode 0 (1920x1080). -/
theorem C1_match_first_improvement_witness :
    ar1335_match_resolution 1900 1070 = c1SpecMatch 1900 1070 ∧
    ar1335_match_resolution 1900 1070 = 0 :=
  ⟨C1_match_first_improvement 1900 1070 (by decide) (by decide) (by decide)
    (by decide) (by decide),
   by decide⟩

/-- C1 counterexample: the request 8x2160 is nonzero and does not exceed
the largest mode in either dimension, yet the driver selects mode 1
while the procedure stated by the claim (exact mismatch arithmetic)
rejects every mode and yields -1: the code's wrapped 32-bit mismatch for
mode 1 is negative (-52853), so a mode with mathematical mismatch
3923968 >> 819 is not skipped. -/
theorem C1_match_first_improvement_counterexample :
    ar1335_match_resolution 8 2160 = 1 ∧ c1SpecMatch 8 2160 = -1 := by
  decide

theorem ar1335_match_loop_cases (w1 h1 : Int) :
    ∀ (l : List (Nat × Nat)) (i : Nat) (d : Int),
      ar1335_match_loop w1 h1 l i d = -1 ∨
      ∃ k, k < l.length ∧ ar1335_match_loop w1 h1 l i d = ((i + k : Nat) : Int) := by
  intro l
  induction l with
  | nil => intro i d; exact Or.inl rfl
  | cons m rest ih =>
      obtain ⟨w0, h0⟩ := m
      intro i d
      simp only [ar1335_match_loop]
      split_ifs with hc1 hc2 hc3
      · rcases ih (i + 1) d with he | ⟨k, hk, he⟩
        · exact Or.inl he
        · refine Or.inr ⟨k + 1, by simpa using Nat.succ_lt_succ hk, ?_⟩
          rw [he]
          congr 1
          omega
      · rcases ih (i + 1) d with he | ⟨k, hk, he⟩
        · exact Or.inl he
        · refine Or.inr ⟨k + 1, by simpa using Nat.succ_lt_succ hk, ?_⟩
          rw [he]
          congr 1
          omega
      · exact Or.inr ⟨0, by simp, by simp⟩
      · rcases ih (i + 1) d with he | ⟨k, hk, he⟩
        · exact Or.inl he
        · refine Or.inr ⟨k + 1, by simpa using Nat.succ_lt_succ hk, ?_⟩
          rw [he]
          congr 1
          omega

theorem ar1335_match_resolution_cases (w h : Nat) :
    ar1335_match_resolution w h = -1 ∨
    ∃ k, k < ar1335_res_table.length ∧ ar1335_match_resolution w h = (k : Int) := by
  unfold ar1335_match_resolution
  split_ifs with hz
  · exact Or.inl rfl
  · rcases ar1335_match_loop_cases (s32 (w : Int)) (s32 (h : Int))
      ar1335_res_table 0 INT_MAX_C with he | ⟨k, hk, he⟩
    · exact Or.inl he
    · exact Or.inr ⟨k, hk, by simpa using he⟩

/-- C3 (confirmed): a request exceeding the largest declared mode in
either dimension selects the last (largest) table mode 3840x2160 with no
further search; a scan that accepts no candidate (matcher result -1)
also falls back to the last mode; and the selected dimensions - the ones
`ar1335_set_fmt` stores into the device FormatState - always equal the
exact dimensions of some `ar1335_res_table` entry. -/
theorem C3_largest_fallback (w h : Nat) :
    ((3840 < w ∨ 2160 < h) → ar1335_try_mbus_fmt w h = (1, 3840, 2160)) ∧
    (ar1335_match_resolution w h = -1 →
      ar1335_try_mbus_fmt w h = (1, 3840, 2160)) ∧
    (∃ i, i < ar1335_res_table.length ∧
      ar1335_try_mbus_fmt w h =
        (i, (ar1335_res_table.getD i (0, 0)).1, (ar1335_res_table.getD i (0, 0)).2)) ∧
    (∀ (dev : Ar1335Device) (req : Ar1335Format), req.width = w → req.height = h →
      ((ar1335_set_fmt dev req).1.format.width,
       (ar1335_set_fmt dev req).1.format.height) =
        ((ar1335_try_mbus_fmt w h).2.1, (ar1335_try_mbus_fmt w h).2.2)) := by
  refine ⟨?_, ?_, ?_, ?_⟩
  · intro hgt
    have hg : ¬(w ≤ 3840 ∧ h ≤ 2160) := by omega
    simp only [ar1335_try_mbus_fmt]
    rw [if_neg hg]
    rfl
  · intro hm
    simp only [ar1335_try_mbus_fmt]
    by_cases hg : w ≤ 3840 ∧ h ≤ 2160
    · rw [if_pos hg, hm]
      rfl
    · rw [if_neg hg]
      rfl
  · simp only [ar1335_try_mbus_fmt]
    by_cases hg : w ≤ 3840 ∧ h ≤ 2160
    · rw [if_pos hg]
      rcases ar1335_match_resolution_cases w h with hm | ⟨k, hk, hm⟩
      · rw [hm]
        exact ⟨1, by simp [ar1335_res_table], rfl⟩
      · rw [hm]
        refine ⟨k, hk, ?_⟩
        rw [if_neg (by omega), Int.toNat_natCast]
    · rw [if_neg hg]
      exact ⟨1, by simp [ar1335_res_table], rfl⟩
  · intro dev req hrw hrh
    subst hrw
    subst hrh
    simp only [ar1335_set_fmt]
    split_ifs <;> rfl

/-- C3 witness: the request 5000x4000 from the specification's example
exceeds the largest mode in both dimensions and selects 3840x2160 (the
last table entry), and the stored FormatState dimensions match it. -/
theorem C3_largest_fallback_witness :
    (3840 < 5000 ∨ 2160 < 4000) ∧ ar1335_try_mbus_fmt 5000 4000 = (1, 3840, 2160) :=
  ⟨by decide, (C3_largest_fallback 5000 4000).1 (by decide)⟩

/-- C2 (corrected, amended): a format request with a zero width or
height is not rejected: `ar1335_match_resolution` does return the
no-match sentinel -1 for it, but `ar1335_try_mbus_fmt_locked` turns -1
into the largest-mode fallback, so `ar1335_set_fmt` (with a supported
media-bus code) succeeds, returning 0 and storing the largest mode
3840x2160 (index 1) instead of failing with an invalid-format error. -/
theorem C2_zero_size_not_rejected (dev : Ar1335Device) (req : Ar1335Format)
    (hz : req.width = 0 ∨ req.height = 0)
    (hc : req.code = MEDIA_BUS_FMT_SRGGB10_1X10 ∨
          req.code = MEDIA_BUS_FMT_SRGGB8_1X8) :
    ar1335_match_resolution req.width req.height = -1 ∧
    (ar1335_set_fmt dev req).2.2 = 0 ∧
    (ar1335_set_fmt dev req).1.format.width = 3840 ∧
    (ar1335_set_fmt dev req).1.format.height = 2160 ∧
    (ar1335_set_fmt dev req).1.cur_res = 1 := by
  have hcond : s32 (req.width : Int) = 0 ∨ s32 (req.height : Int) = 0 := by
    rcases hz with hz | hz
    · left
      rw [hz]
      rfl
    · right
      rw [hz]
      rfl
  have hmatch : ar1335_match_resolution req.width req.height = -1 := by
    unfold ar1335_match_resolution
    exact if_pos hcond
  have htry : ar1335_try_mbus_fmt req.width req.height = (1, 3840, 2160) :=
    (C3_largest_fallback req.width req.height).2.1 hmatch
  refine ⟨hmatch, ?_, ?_, ?_, ?_⟩
  all_goals simp only [ar1335_set_fmt, htry]
  all_goals rw [if_pos hc]
  all_goals norm_num

/-- C2 witness: the concrete zero-size request 0x0 with the supported
SRGGB10 code succeeds through `ar1335_set_fmt` on the probe-time device,
selecting the largest mode. -/
theorem C2_zero_size_not_rejected_witness :
    ar1335_match_resolution 0 0 = -1 ∧
    (ar1335_set_fmt ar1335_probe_device
      { width := 0, height := 0, code := MEDIA_BUS_FMT_SRGGB10_1X10,
        field := V4L2_FIELD_NONE }).2.2 = 0 ∧
    (ar1335_set_fmt ar1335_probe_device
      { width := 0, height := 0, code := MEDIA_BUS_FMT_SRGGB10_1X10,
        field := V4L2_FIELD_NONE }).1.format.width = 3840 ∧
    (ar1335_set_fmt ar1335_probe_device
      { width := 0, height := 0, code := MEDIA_BUS_FMT_SRGGB10_1X10,
        field := V4L2_FIELD_NONE }).1.format.height = 2160 ∧
    (ar1335_set_fmt ar1335_probe_device
      { width := 0, height := 0, code := MEDIA_BUS_FMT_SRGGB10_1X10,
        field := V4L2_FIELD_NONE }).1.cur_res = 1 :=
  C2_zero_size_not_rejected ar1335_probe_device
    { width := 0, height := 0, code := MEDIA_BUS_FMT_SRGGB10_1X10,
      field := V4L2_FIELD_NONE } (by decide) (by decide)

/-- C2 counterexample: the claim says a zero-dimension request makes
set_format fail without selecting a mode; in fact the request 0x0 (with
the supported SRGGB10 code) returns 0 (success) and selects table mode 1
(3840x2160). -/
theorem C2_zero_size_not_rejected_counterexample :
    (ar1335_set_fmt ar1335_probe_device
      { width := 0, height := 0, code := MEDIA_BUS_FMT_SRGGB10_1X10,
        field := V4L2_FIELD_NONE }).2.2 = 0 ∧
    (ar1335_set_fmt ar1335_probe_device
      { width := 0, height := 0, code := MEDIA_BUS_FMT_SRGGB10_1X10,
        field := V4L2_FIELD_NONE }).1.format.width = 3840 := by
  decide

/-- C9 (corrected, amended): when `ar1335_set_fmt` fails for an
unsupported media-bus code it returns -EINVAL, but it has already
overwritten the stored state: `cur_res` and the FormatState width,
height and field are updated from the matched resolution before the code
check runs; only the stored media-bus code keeps its previous value. -/
theorem C9_failed_set_fmt_mutates (dev : Ar1335Device) (req : Ar1335Format)
    (hc : ¬(req.code = MEDIA_BUS_FMT_SRGGB10_1X10 ∨
            req.code = MEDIA_BUS_FMT_SRGGB8_1X8)) :
    (ar1335_set_fmt dev req).2.2 = -22 ∧
    (ar1335_set_fmt dev req).1.format.code = dev.format.code ∧
    (ar1335_set_fmt dev req).1.cur_res =
      ((ar1335_try_mbus_fmt req.width req.height).1 : Int) ∧
    (ar1335_set_fmt dev req).1.format.width =
      (ar1335_try_mbus_fmt req.width req.height).2.1 ∧
    (ar1335_set_fmt dev req).1.format.height =
      (ar1335_try_mbus_fmt req.width req.height).2.2 ∧
    (ar1335_set_fmt dev req).1.format.field = V4L2_FIELD_NONE := by
  simp only [ar1335_set_fmt]
  rw [if_neg hc]
  exact ⟨rfl, rfl, rfl, rfl, rfl, rfl⟩

/-- C9 witness: a device holding 1920x1080 that receives a 3840x2160
request with the unsupported code 0 gets -EINVAL back, yet its stored
width is now 3840 and its current mode index is 1. -/
theorem C9_failed_set_fmt_mutates_witness :
    (¬((0 : Nat) = MEDIA_BUS_FMT_SRGGB10_1X10 ∨
       (0 : Nat) = MEDIA_BUS_FMT_SRGGB8_1X8)) ∧
    ((ar1335_set_fmt
      { format := { width := 1920, height := 1080,
                    code := MEDIA_BUS_FMT_SRGGB10_1X10, field := V4L2_FIELD_NONE },
        cur_res := 0, sys_activated := false, res_table := none }
      { width := 3840, height := 2160, code := 0, field := V4L2_FIELD_NONE }).2.2 = -22 ∧
     (ar1335_set_fmt
      { format := { width := 1920, height := 1080,
                    code := MEDIA_BUS_FMT_SRGGB10_1X10, field := V4L2_FIELD_NONE },
        cur_res := 0, sys_activated := false, res_table := none }
      { width := 3840, height := 2160, code := 0, field := V4L2_FIELD_NONE }).1.format.code =
      MEDIA_BUS_FMT_SRGGB10_1X10 ∧
     (ar1335_set_fmt
      { format := { width := 1920, height := 1080,
                    code := MEDIA_BUS_FMT_SRGGB10_1X10, field := V4L2_FIELD_NONE },
        cur_res := 0, sys_activated := false, res_table := none }
      { width := 3840, height := 2160, code := 0, field := V4L2_FIELD_NONE }).1.format.width = 3840) := by
  refine ⟨by decide, ?_⟩
  have hr := C9_failed_set_fmt_mutates
    { format := { width := 1920, height := 1080,
                  code := MEDIA_BUS_FMT_SRGGB10_1X10, field := V4L2_FIELD_NONE },
      cur_res := 0, sys_activated := false, res_table := none }
    { width := 3840, height := 2160, code := 0, field := V4L2_FIELD_NONE }
    (by decide)
  exact ⟨hr.1, by rw [hr.2.1], by rw [hr.2.2.2.1]; decide⟩

/-- C9 counterexample: the claim says a failed set_format leaves the
stored FormatState and current mode index unchanged; on the concrete
device holding 1920x1080 (cur_res 0), the failing 3840x2160 request with
unsupported code 0 returns -22 while the stored width has changed to
3840 and cur_res to 1. -/
theorem C9_failed_set_fmt_mutates_counterexample :
    (ar1335_set_fmt
      { format := { width := 1920, height := 1080,
                    code := MEDIA_BUS_FMT_SRGGB10_1X10, field := V4L2_FIELD_NONE },
        cur_res := 0, sys_activated := false, res_table := none }
      { width := 3840, height := 2160, code := 0, field := V4L2_FIELD_NONE }).2.2 = -22 ∧
    (ar1335_set_fmt
      { format := { width := 1920, height := 1080,
                    code := MEDIA_BUS_FMT_SRGGB10_1X10, field := V4L2_FIELD_NONE },
        cur_res := 0, sys_activated := false, res_table := none }
      { width := 3840, height := 2160, code := 0, field := V4L2_FIELD_NONE }).1.format.width ≠ 1920 ∧
    (ar1335_set_fmt
      { format := { width := 1920, height := 1080,
                    code := MEDIA_BUS_FMT_SRGGB10_1X10, field := V4L2_FIELD_NONE },
        cur_res := 0, sys_activated := false, res_table := none }
      { width := 3840, height := 2160, code := 0, field := V4L2_FIELD_NONE }).1.cur_res ≠ 0 := by
  decide

theorem land_even_mask_mod_two (v : Nat) : (v &&& 4294967294) % 2 = 0 := by
  have h : (v &&& 4294967294) &&& 1 = v &&& (4294967294 &&& 1) :=
    Nat.land_assoc v 4294967294 1
  rw [Nat.and_one_is_mod] at h
  rw [show ((4294967294 : Nat) &&& 1) = 0 by decide] at h
  simpa using h

theorem u32sub_of_le (a b : Nat) (h : b ≤ a) (ha : a < 4294967296) :
    u32sub a b = a - b := by
  unfold u32sub
  omega

/-- C5 (confirmed): for every FormatState within the sensor's pixel
array (width at most `AR1335_WIDTH_MAX` = 4240, height at most
`AR1335_HEIGHT_MAX` = 3152 - all formats the driver ever stores satisfy
this, being either the probe default 4240x3152 or a mode-table entry),
`ar1335_set_geometry` emits
`x_start = clamp((4240 - width) / 2, 8, 4231)`,
`y_start = clamp(((3152 - height) / 2) & ~1, 8, 3143)`, end coordinates
equal to start + size - 1, the emitted y_start is even, and x_start lies
in [8, 4231]. -/
theorem C5_geometry_centered_window (w h : Nat) (hw : w ≤ 4240) (hh : h ≤ 3152) :
    ar1335_set_geometry w h =
      [RegOp.write 0x0344 (min 4231 (max 8 ((4240 - w) / 2))),
       RegOp.write 0x0346 (min 3143 (max 8 ((3152 - h) / 2 &&& 4294967294))),
       RegOp.write 0x0348 (ar1335_geom_x w + w - 1),
       RegOp.write 0x034A (ar1335_geom_y h + h - 1),
       RegOp.write 0x034C w,
       RegOp.write 0x034E h] ∧
    Even (ar1335_geom_y h) ∧ 8 ≤ ar1335_geom_x w ∧ ar1335_geom_x w ≤ 4231 := by
  have hxe : ar1335_geom_x w = min 4231 (max 8 ((4240 - w) / 2)) := by
    unfold ar1335_geom_x
    rw [u32sub_of_le 4240 w hw (by norm_num)]
  have hye : ar1335_geom_y h = min 3143 (max 8 ((3152 - h) / 2 &&& 4294967294)) := by
    unfold ar1335_geom_y
    rw [u32sub_of_le 3152 h hh (by norm_num)]
  have hL2 : ((3152 - h) / 2 &&& 4294967294) % 2 = 0 := land_even_mask_mod_two _
  have hLle : (3152 - h) / 2 &&& 4294967294 ≤ (3152 - h) / 2 := Nat.and_le_left
  have hLb : (3152 - h) / 2 ≤ 1576 := by omega
  have hxlo : 8 ≤ ar1335_geom_x w := by rw [hxe]; omega
  have hxhi : ar1335_geom_x w ≤ 4231 := by rw [hxe]; omega
  have hyeven : Even (ar1335_geom_y h) := by
    rw [Nat.even_iff, hye]
    omega
  have hyb : ar1335_geom_y h ≤ 3143 := by rw [hye]; omega
  refine ⟨?_, hyeven, hxlo, hxhi⟩
  unfold ar1335_set_geometry
  rw [Nat.mod_eq_of_lt (show ar1335_geom_x w + w - 1 < 65536 by omega),
      Nat.mod_eq_of_lt (show ar1335_geom_y h + h - 1 < 65536 by omega),
      Nat.mod_eq_of_lt (show w < 65536 by omega),
      Nat.mod_eq_of_lt (show h < 65536 by omega),
      hxe, hye]

/-- C5 witness: for the 3840x2160 format the emitted x_start is 200,
inside [8, 4231], and the emitted y_start 496 is even. -/
theorem C5_geometry_centered_window_witness :
    (3840 ≤ 4240 ∧ 2160 ≤ 3152) ∧
    (Even (ar1335_geom_y 2160) ∧ 8 ≤ ar1335_geom_x 3840 ∧
     ar1335_geom_x 3840 ≤ 4231) ∧ ar1335_geom_x 3840 = 200 :=
  ⟨by decide,
   (C5_geometry_centered_window 3840 2160 (by decide) (by decide)).2,
   by decide⟩

/-- C6 (corrected, amended): in the register sequence issued on stream
start, the active-window bound registers x_start (0x0344), y_start
(0x0346), x_end (0x0348), y_end (0x034A) are written first (positions
0-3, by the geometry burst), and the line-length-pck (0x0342) and
frame-length-lines (0x0340) registers are written only later, inside the
mode table - the opposite of the claimed order. -/
theorem C6_window_before_length (w h idx : Nat) (hidx : idx ≤ 1) :
    addrIndex (ar1335_stream_start_ops w h idx) 0x0344 = 0 ∧
    addrIndex (ar1335_stream_start_ops w h idx) 0x0346 = 1 ∧
    addrIndex (ar1335_stream_start_ops w h idx) 0x0348 = 2 ∧
    addrIndex (ar1335_stream_start_ops w h idx) 0x034A = 3 ∧
    addrIndex (ar1335_stream_start_ops w h idx) 0x034A <
      addrIndex (ar1335_stream_start_ops w h idx) 0x0342 ∧
    addrIndex (ar1335_stream_start_ops w h idx) 0x0342 <
      addrIndex (ar1335_stream_start_ops w h idx) 0x0340 ∧
    addrIndex (ar1335_stream_start_ops w h idx) 0x0340 <
      (ar1335_stream_start_ops w h idx).length := by
  interval_cases idx
  · exact ⟨rfl, rfl, rfl, rfl, Nat.lt_of_sub_eq_succ rfl,
      Nat.lt_of_sub_eq_succ rfl, Nat.lt_of_sub_eq_succ rfl⟩
  · exact ⟨rfl, rfl, rfl, rfl, Nat.lt_of_sub_eq_succ rfl,
      Nat.lt_of_sub_eq_succ rfl, Nat.lt_of_sub_eq_succ rfl⟩

/-- C6 witness: for the 3840x2160 format and mode index 1, the window
bound registers sit at positions 0-3 and the frame/line length registers
come later. -/
theorem C6_window_before_length_witness :
    (1 : Nat) ≤ 1 ∧
    addrIndex (ar1335_stream_start_ops 3840 2160 1) 0x0344 = 0 ∧
    addrIndex (ar1335_stream_start_ops 3840 2160 1) 0x0346 = 1 ∧
    addrIndex (ar1335_stream_start_ops 3840 2160 1) 0x0348 = 2 ∧
    addrIndex (ar1335_stream_start_ops 3840 2160 1) 0x034A = 3 ∧
    addrIndex (ar1335_stream_start_ops 3840 2160 1) 0x034A <
      addrIndex (ar1335_stream_start_ops 3840 2160 1) 0x0342 ∧
    addrIndex (ar1335_stream_start_ops 3840 2160 1) 0x0342 <
      addrIndex (ar1335_stream_start_ops 3840 2160 1) 0x0340 ∧
    addrIndex (ar1335_stream_start_ops 3840 2160 1) 0x0340 <
      (ar1335_stream_start_ops 3840 2160 1).length :=
  ⟨by decide, C6_window_before_length 3840 2160 1 (by decide)⟩

/-- C6 counterexample: the claim requires frame-length-lines (0x0340)
and line-length-pck (0x0342) to be written before the window bounds; in
the concrete stream-start sequence for 3840x2160 (mode 1) the first
window-bound write (0x0344) is at position 0 while 0x0340 is at position
24 and 0x0342 at 23, so neither length register precedes the window
bounds. -/
theorem C6_window_before_length_counterexample :
    ¬(addrIndex (ar1335_stream_start_ops 3840 2160 1) 0x0340 <
      addrIndex (ar1335_stream_start_ops 3840 2160 1) 0x0344) ∧
    ¬(addrIndex (ar1335_stream_start_ops 3840 2160 1) 0x0342 <
      addrIndex (ar1335_stream_start_ops 3840 2160 1) 0x0344) ∧
    addrIndex (ar1335_stream_start_ops 3840 2160 1) 0x0344 = 0 ∧
    addrIndex (ar1335_stream_start_ops 3840 2160 1) 0x0340 = 24 ∧
    addrIndex (ar1335_stream_start_ops 3840 2160 1) 0x0342 = 23 := by
  decide

/-- C7 (corrected, amended): the driver's gain control is a preset
lookup, not an analog/digital split encoder: `ar1335_set_gain` performs
a single write to register 0x305E of the preset
`ar1335_gain_values[val]`, and none of the six presets equals the
register value `(64 << 7) | 40` the claim derives for master=40 with
zero balances. -/
theorem C7_gain_lookup (val : Nat) (hv : val < 6) :
    ar1335_set_gain val = RegOp.write 0x305E (ar1335_gain_values.getD val 0) ∧
    ar1335_gain_values.getD val 0 ≠ ((64 <<< 7) ||| 40) := by
  refine ⟨rfl, ?_⟩
  interval_cases val <;> decide

/-- C7 witness: gain control value 0 writes preset 0x2015 to 0x305E,
which is not the claimed packed value 8232. -/
theorem C7_gain_lookup_witness :
    (0 : Nat) < 6 ∧
    ar1335_set_gain 0 = RegOp.write 0x305E (ar1335_gain_values.getD 0 0) ∧
    ar1335_gain_values.getD 0 0 ≠ ((64 <<< 7) ||| 40) :=
  ⟨by decide, C7_gain_lookup 0 (by decide)⟩

/-- C7 counterexample: the claim requires the four channel registers for
master=40, red_bal=0, blue_bal=0 to hold `(64 << 7) | 40` = 8232; the
driver's gain table does not contain 8232, so no gain control setting
ever produces that register value, and the gain operation writes the
single register 0x305E rather than four channel registers. -/
theorem C7_gain_lookup_counterexample :
    ar1335_gain_values.contains ((64 <<< 7) ||| 40) = false ∧
    ar1335_gain_values.length = 6 ∧
    ar1335_set_gain 0 = RegOp.write 0x305E 0x2015 := by
  decide

/-- C8 (corrected, amended): `ar1335_s_stream` checks no streaming
state in either direction. A stream-stop issued from any state - in
particular from the never-streamed probe state (`sys_activated` false) -
succeeds with return 0, writing the stop-stream table (it does not fail
with an invalid-state error). A second stream-start without an
intervening stop also succeeds with return 0 and re-issues the entire
geometry + mode-table + start-stream sequence, identical to the first
start's sequence and nonempty, so it is neither a no-op nor an error;
the only state change is setting `sys_activated`. -/
theorem C8_no_state_checks (dev : Ar1335Device) :
    ar1335_s_stream dev false = (dev, ar1335_stop_stream, 0) ∧
    ar1335_stop_stream ≠ [] ∧
    (ar1335_s_stream (ar1335_s_stream dev true).1 true).2.1 =
      (ar1335_s_stream dev true).2.1 ∧
    (ar1335_s_stream (ar1335_s_stream dev true).1 true).2.2 = 0 ∧
    (ar1335_s_stream dev true).2.1 ≠ [] ∧
    (ar1335_s_stream dev true).1.sys_activated = true := by
  refine ⟨rfl, by decide, rfl, rfl, ?_, rfl⟩
  simp [ar1335_s_stream, ar1335_stream_start_ops, ar1335_set_geometry]

/-- C8 counterexample: on the probe-time device (never streamed,
`sys_activated` false), stream-stop returns 0 (success) instead of an
invalid-state error, and a double stream-start returns 0 while writing a
nonempty register sequence again (34 operations) - neither of the two
policies the claim allows. -/
theorem C8_no_state_checks_counterexample :
    ar1335_probe_device.sys_activated = false ∧
    (ar1335_s_stream ar1335_probe_device false).2.2 = 0 ∧
    (ar1335_s_stream (ar1335_s_stream ar1335_probe_device true).1 true).2.2 = 0 ∧
    (ar1335_s_stream (ar1335_s_stream ar1335_probe_device true).1 true).2.1 ≠ [] := by
  decide

/-- C10 (corrected, amended): `ar1335_enum_frame_size` rejects with
-EINVAL exactly the indices whose signed 32-bit value is at least
`cur_res` - in particular, immediately after probe (`cur_res` 0) every
index with nonnegative signed value fails with -EINVAL - but indices
below `cur_res` do not succeed either: they read through the
`res_table` pointer, which `ar1335_probe` never assigns (it stays NULL),
so on every state the driver can reach, no enumeration call ever
returns a frame size. -/
theorem C10_enum_frame_size_never_ok (dev : Ar1335Device) (index : Nat)
    (ht : dev.res_table = none) :
    (dev.cur_res ≤ s32 (index : Int) →
      ar1335_enum_frame_size dev index = EnumResult.err (-22)) ∧
    (s32 (index : Int) < dev.cur_res →
      ar1335_enum_frame_size dev index = EnumResult.fault) ∧
    (∀ fw fh, ar1335_enum_frame_size dev index ≠ EnumResult.ok fw fh) := by
  unfold ar1335_enum_frame_size
  rw [ht]
  refine ⟨?_, ?_, ?_⟩
  · intro hle
    rw [if_pos hle]
  · intro hlt
    rw [if_neg (not_le.mpr hlt)]
    split_ifs <;> rfl
  · intro fw fh
    split_ifs <;> simp

/-- C10 witness: on the probe-time device (cur_res 0, res_table NULL)
index 0 has signed value 0 at cur_res, so enumeration fails with
-EINVAL, and no index value yields a frame size. -/
theorem C10_enum_frame_size_never_ok_witness :
    ar1335_probe_device.res_table = none ∧
    (ar1335_probe_device.cur_res ≤ s32 ((0 : Nat) : Int) →
      ar1335_enum_frame_size ar1335_probe_device 0 = EnumResult.err (-22)) ∧
    ar1335_probe_device.cur_res ≤ s32 ((0 : Nat) : Int) :=
  ⟨rfl, (C10_enum_frame_size_never_ok ar1335_probe_device 0 rfl).1, by decide⟩

/-- C10 counterexample: the claim says enumeration succeeds exactly for
indices strictly below the current mode index; after setting the format
to 3840x2160 the device has cur_res = 1, yet enumerating index 0 does
not succeed - it reads the never-assigned res_table pointer and faults
instead of returning a frame size. -/
theorem C10_enum_frame_size_never_ok_counterexample :
    (ar1335_set_fmt ar1335_probe_device
      { width := 3840, height := 2160, code := MEDIA_BUS_FMT_SRGGB10_1X10,
        field := V4L2_FIELD_NONE }).1.cur_res = 1 ∧
    s32 ((0 : Nat) : Int) <
      (ar1335_set_fmt ar1335_probe_device
        { width := 3840, height := 2160, code := MEDIA_BUS_FMT_SRGGB10_1X10,
          field := V4L2_FIELD_NONE }).1.cur_res ∧
    ar1335_enum_frame_size
      ((ar1335_set_fmt ar1335_probe_device
        { width := 3840, height := 2160, code := MEDIA_BUS_FMT_SRGGB10_1X10,
          field := V4L2_FIELD_NONE }).1) 0 = EnumResult.fault := by
  decide


theorem le_mul_ceilDiv (a b : Nat) (hb : 0 < b) : a ≤ b * ceilDiv a b := by
  unfold ceilDiv
  have hdm : b * ((a + b - 1) / b) + (a + b - 1) % b = a + b - 1 :=
    Nat.div_add_mod (a + b - 1) b
  have hml : (a + b - 1) % b < b := Nat.mod_lt _ hb
  obtain ⟨P, hP⟩ : ∃ p, b * ((a + b - 1) / b) = p := ⟨_, rfl⟩
  rw [hP] at hdm ⊢
  omega

theorem ceilDiv_ge_div (a b : Nat) (hb : 0 < b) : a / b ≤ ceilDiv a b := by
  unfold ceilDiv
  exact Nat.div_le_div_right (by omega)

theorem pllMinMult_ext_zero (target pre : Nat) : pllMinMult target 0 pre = 0 := by
  unfold pllMinMult ceilDiv
  simp

theorem pllFreq_minMult_ge_target (target ext pre : Nat)
    (hext : 0 < ext) (hpre : 0 < pre) :
    target ≤ pllFreq ext (pllMinMult target ext pre) pre := by
  unfold pllFreq pllMinMult
  have h1 : target * pre ≤ ext * ceilDiv (target * pre) ext :=
    le_mul_ceilDiv (target * pre) ext hext
  have h2 : (target * pre) / pre ≤ (ext * ceilDiv (target * pre) ext) / pre :=
    Nat.div_le_div_right h1
  rw [Nat.mul_div_cancel target hpre] at h2
  exact le_trans h2 (ceilDiv_ge_div _ _ hpre)

theorem pllLoop_le (target ext : Nat) :
    ∀ (l : List Nat) (b : Nat × Nat × Nat),
      (pllLoop target ext l b).1 ≤ b.1 := by
  intro l
  induction l with
  | nil => intro b; exact le_refl _
  | cons pre rest ih =>
      intro b
      simp only [pllLoop]
      split_ifs with h1 h2 h3 h4 h5
      · exact ih b
      · exact le_refl _
      · exact le_refl _
      · exact ih b
      · exact le_trans (ih _) (le_of_lt h5)
      · exact ih b

theorem pllLoop_inv (target ext : Nat) :
    ∀ (l : List Nat) (b : Nat × Nat × Nat),
      (∀ p ∈ l, 1 ≤ p ∧ p ≤ 63) →
      (b.1 = PLL_MAX + 1 ∨ pllInv target ext b) →
      ((pllLoop target ext l b).1 = PLL_MAX + 1 ∨
        pllInv target ext (pllLoop target ext l b)) := by
  intro l
  induction l with
  | nil => intro b _ hb; exact hb
  | cons pre rest ih =>
      intro b hl hb
      have hpre := hl pre (List.mem_cons_self _ _)
      have hrest := fun p hp => hl p (List.mem_cons_of_mem _ hp)
      simp only [pllLoop]
      split_ifs with h1 h2 h3 h4 h5
      · exact ih b hrest hb
      · exact hb
      · exact hb
      · exact ih b hrest hb
      · refine ih _ hrest (Or.inr ⟨hpre.1, hpre.2, rfl, ?_, ?_, rfl, ?_, ?_⟩)
        · show 32 ≤ pllMinMult target ext pre
          omega
        · show pllMinMult target ext pre ≤ 254
          omega
        · show PLL_MIN ≤ pllFreq ext (pllMinMult target ext pre) pre
          omega
        · show pllFreq ext (pllMinMult target ext pre) pre ≤ PLL_MAX
          omega
      · exact ih b hrest hb

theorem pllLoop_min (target ext : Nat) :
    ∀ (l : List Nat), List.Pairwise (· < ·) l →
      ∀ (b : Nat × Nat × Nat) (q : Nat), q ∈ l →
        pllGoodPre target ext q →
        (∀ r ∈ l, r < q → ¬ pllBreakAt target ext r) →
        (pllLoop target ext l b).1 ≤
          pllFreq ext (pllMinMult target ext q) q := by
  intro l
  induction l with
  | nil => intro _ b q hq; cases hq
  | cons pre rest ih =>
      intro hpw b q hq hgood hnb
      have hpw1 : ∀ x ∈ rest, pre < x := (List.pairwise_cons.mp hpw).1
      have hpw2 : List.Pairwise (· < ·) rest := (List.pairwise_cons.mp hpw).2
      rcases List.mem_cons.mp hq with rfl | hq'
      · obtain ⟨hg1, hg2, hg3, hg4⟩ := hgood
        simp only [pllLoop]
        rw [if_neg (by omega), if_neg (by omega), if_neg (by omega),
            if_neg (by omega)]
        split_ifs with h5
        · exact le_trans (pllLoop_le target ext rest _) (le_refl _)
        · exact le_trans (pllLoop_le target ext rest b) (by omega)
      · have hqgt : pre < q := hpw1 q hq'
        have hnb' : ∀ r ∈ rest, r < q → ¬ pllBreakAt target ext r :=
          fun r hr hrq => hnb r (List.mem_cons_of_mem _ hr) hrq
        simp only [pllLoop]
        split_ifs with h1 h2 h3 h4 h5
        · exact ih hpw2 b q hq' hgood hnb'
        · exact absurd ⟨by omega, Or.inl h2⟩
            (hnb pre (List.mem_cons_self _ _) hqgt)
        · exact absurd ⟨by omega, Or.inr h3⟩
            (hnb pre (List.mem_cons_self _ _) hqgt)
        · exact ih hpw2 b q hq' hgood hnb'
        · exact ih hpw2 _ q hq' hgood hnb'
        · exact ih hpw2 b q hq' hgood hnb'

/-- C4 (corrected, amended; the synthesizer is modelled from the spec,
section 4.3, as no computed-PLL code exists under src/): whenever the
search returns a configuration, it satisfies 1 <= pre <= 63,
32 <= mult <= 254, PLL_MIN <= achieved <= PLL_MAX and achieved >= target
(ceiling semantics), where mult is the minimal multiplier reaching the
target for its pre-divider; and the achieved frequency is minimal among
all candidates (q, minimal mult for q) that satisfy every constraint and
are not preceded by a pre-divider at which the scan terminates early.
The search is not guaranteed to succeed whenever some valid (pre, mult)
pair exists, because for each pre-divider only the minimal multiplier is
ever considered (see the counterexample). -/
theorem C4_pll_solve_minimal (target ext : Nat) (c : PLLConfig)
    (h : pllSolve target ext = Except.ok c) :
    pllValidPair target ext c.pre c.mult ∧
    c.mult = pllMinMult target ext c.pre ∧
    (∀ q, q ≤ 63 → 1 ≤ q → pllGoodPre target ext q →
      (∀ r, r < q → 1 ≤ r → ¬ pllBreakAt target ext r) →
      pllFreq ext c.mult c.pre ≤ pllFreq ext (pllMinMult target ext q) q) := by
  unfold pllSolve at h
  split_ifs at h with hs
  obtain rfl := Except.ok.inj h
  dsimp only
  have hinv := pllLoop_inv target ext (List.range' 1 63) (PLL_MAX + 1, 1, 0)
    (fun p hp => by
      have := List.mem_range'_1.mp hp
      omega)
    (Or.inl rfl)
  rcases hinv with hinv | hinv
  · exact absurd hinv hs
  · obtain ⟨i1, i2, i3, i4, i5, i6, i7, i8⟩ := hinv
    have hext : 0 < ext := by
      rcases Nat.eq_zero_or_pos ext with he | he
      · subst he
        rw [pllMinMult_ext_zero] at i3
        omega
      · exact he
    have htarget : target ≤
        pllFreq ext (pllLoop target ext (List.range' 1 63) (PLL_MAX + 1, 1, 0)).2.2
          (pllLoop target ext (List.range' 1 63) (PLL_MAX + 1, 1, 0)).2.1 := by
      rw [i3]
      exact pllFreq_minMult_ge_target target ext _ hext (by omega)
    refine ⟨⟨i1, i2, i4, i5, htarget, by omega, by omega⟩, i3, ?_⟩
    intro q hq63 hq1 hqgood hqnb
    have hmin := pllLoop_min target ext (List.range' 1 63) (by decide)
      (PLL_MAX + 1, 1, 0) q
      (List.mem_range'_1.mpr ⟨hq1, by omega⟩) hqgood
      (fun r hr hrq => hqnb r hrq (List.mem_range'_1.mp hr).1)
    rw [← i6]
    exact hmin

/-- C4 witness: for target 560 MHz from a 24 MHz external clock the
synthesizer returns pre = 3, mult = 70, and the returned configuration
satisfies every property of the amended claim (achieved frequency
exactly 560 MHz, the minimum over all surviving candidates). -/
theorem C4_pll_solve_minimal_witness :
    pllSolve 560000000 24000000 = Except.ok { pre := 3, mult := 70 } ∧
    (pllValidPair 560000000 24000000 3 70 ∧
     (70 : Nat) = pllMinMult 560000000 24000000 3 ∧
     (∀ q, q ≤ 63 → 1 ≤ q → pllGoodPre 560000000 24000000 q →
       (∀ r, r < q → 1 ≤ r → ¬ pllBreakAt 560000000 24000000 r) →
       pllFreq 24000000 70 3 ≤
         pllFreq 24000000 (pllMinMult 560000000 24000000 q) q)) :=
  ⟨rfl, C4_pll_solve_minimal 560000000 24000000 { pre := 3, mult := 70 } rfl⟩

/-- C4 counterexample: for target 250 MHz from the in-range 48 MHz
external clock the synthesizer fails with ClockOutOfRange even though
the pair pre = 4, mult = 32 is valid (achieved 384 MHz, inside
[PLL_MIN, PLL_MAX] and above target): the claim's assertion that a
configuration is returned for every input with a valid pair, making
ClockOutOfRange occur only when no valid pair exists, is false, because
the search considers only the minimal multiplier for each pre-divider
(here 21 < 32 at pre = 4). -/
theorem C4_pll_solve_minimal_counterexample :
    pllSolve 250000000 48000000 = Except.error PllError.ClockOutOfRange ∧
    pllValidPair 250000000 48000000 4 32 ∧
    pllMinMult 250000000 48000000 4 = 21 :=
  ⟨rfl, by decide, by decide⟩
